import Mathlib

/-!
Verification development for the `advanced-attunement` module
(`src/scripts/advanced_attunement.js`).

The module wraps host documents (Foundry VTT actors and items) and maintains
an "attunement burden" per character: the sum of the sanitized attunement
weights of the character's currently attuned items, persisted in the
character's flag store under the module's namespace.

Shallow embedding choices:
* Host flag stores are association lists from `(namespace, key)` pairs to
  `FlagVal`, the domain of JSON-representable JavaScript values that can sit
  in a flag (plus `undefined` for an absent key and `NaN`, which can be
  produced and then persisted by the module's own arithmetic).
* JavaScript numbers are modelled as `JsNum`: either NaN or a finite number
  (a rational).  `Math.floor`, `Math.max(0, ·)` and `+` are given their
  JavaScript semantics on this domain, in particular NaN propagation.
* `===`/`!==` comparisons between a number and an arbitrary flag value are
  modelled by `strictEqNumFlag` (strict equality: false across types and
  false on NaN, even against NaN itself).
* Persistence effects of `setFlag` are made explicit: the updating
  operations return the updated actor together with the list of performed
  writes and the list of reported log transitions.
-/

/-- A JavaScript value that a flag read (`getFlag`) can produce, or that can
be supplied to the sanitizing helpers.  `undef` is `undefined` (absent key);
`num` is a finite number; `nan` is the number NaN; `strNum s` is a string
that coerces to the finite number `s`; `strBad` is a string that does not
coerce to a number; `objV` is a plain object. -/
inductive FlagVal where
  | undef : FlagVal
  | nullV : FlagVal
  | boolV : Bool → FlagVal
  | num : ℚ → FlagVal
  | nan : FlagVal
  | strNum : ℚ → FlagVal
  | strBad : String → FlagVal
  | objV : FlagVal
deriving DecidableEq, Repr

/-- A JavaScript number: NaN or a finite value. -/
inductive JsNum where
  | nan : JsNum
  | val : ℚ → JsNum
deriving DecidableEq, Repr

/-- JavaScript `ToNumber` coercion on the modelled value domain
(`Number(undefined) = NaN`, `Number(null) = 0`, booleans to 0/1,
non-numeric strings and plain objects to NaN). -/
def toNumber : FlagVal → JsNum
  | .undef => .nan
  | .nullV => .val 0
  | .boolV b => .val (if b then 1 else 0)
  | .num q => .val q
  | .nan => .nan
  | .strNum q => .val q
  | .strBad _ => .nan
  | .objV => .nan

/-- `Math.floor` (NaN-propagating). -/
def jsFloor : JsNum → JsNum
  | .nan => .nan
  | .val q => .val (⌊q⌋ : ℤ)

/-- `Math.max(0, x)` (NaN-propagating). -/
def jsMax0 : JsNum → JsNum
  | .nan => .nan
  | .val q => .val (max 0 q)

/-- JavaScript `+` on numbers (NaN-propagating). -/
def jsAdd : JsNum → JsNum → JsNum
  | .val a, .val b => .val (a + b)
  | _, _ => .nan

/-- The flag value that persisting a computed number stores. -/
def toFlag : JsNum → FlagVal
  | .nan => .nan
  | .val q => .num q

/-- JavaScript strict equality `===` between a number and an arbitrary flag
value: false across types, false whenever the number is NaN (NaN === NaN is
false), and ordinary equality between finite numbers. -/
def strictEqNumFlag : JsNum → FlagVal → Bool
  | .val q, .num r => q = r
  | _, _ => false

/-- A Foundry item document, restricted to the fields the module reads:
`id`, `name`, `system.attunement` and the flag store. -/
structure Item where
  id : String
  name : String
  attunement : ℤ
  flags : List ((String × String) × FlagVal)
deriving DecidableEq, Repr

/-- `item.getFlag(namespace, key)`: the most recently written value for the
key, or `undefined` when absent. -/
def Item.getFlag (i : Item) (ns key : String) : FlagVal :=
  match i.flags.find? (fun e => e.1 = (ns, key)) with
  | none => .undef
  | some e => e.2

/-- `item.setFlag(namespace, key, value)` as a pure update. -/
def Item.setFlag (i : Item) (ns key : String) (v : FlagVal) : Item :=
  { i with flags := ((ns, key), v) :: i.flags }

/-- A Foundry actor document, restricted to the fields the module reads:
`id`, `name`, `type`, the owned-items collection and the flag store. -/
structure Actor where
  id : String
  name : String
  type : String
  items : List Item
  flags : List ((String × String) × FlagVal)
deriving DecidableEq, Repr

/-- `actor.getFlag(namespace, key)`. -/
def Actor.getFlag (a : Actor) (ns key : String) : FlagVal :=
  match a.flags.find? (fun e => e.1 = (ns, key)) with
  | none => .undef
  | some e => e.2

/-- `actor.setFlag(namespace, key, value)` as a pure update. -/
def Actor.setFlag (a : Actor) (ns key : String) (v : FlagVal) : Actor :=
  { a with flags := ((ns, key), v) :: a.flags }

/-- The host's global actor registry (`game.actors`). -/
structure Game where
  actors : List Actor
deriving DecidableEq, Repr

namespace AdvancedAttunement

/-- `AdvancedAttunement.ID`. -/
def ID : String := "advanced-attunement"

/-- `AdvancedAttunement.FLAGS.ATTUNEMENT_WEIGHT`. -/
def ATTUNEMENT_WEIGHT : String := "attunement-weight"

/-- `AdvancedAttunement.FLAGS.ATTUNEMENT_BURDEN`. -/
def ATTUNEMENT_BURDEN : String := "attunement-burden"

/-- `AdvancedAttunement.isPlayerCharacter`: `actor.type === 'character'`. -/
def isPlayerCharacter (a : Actor) : Bool := a.type = "character"

/-- `AdvancedAttunement.isAttuned`: `item.system.attunement === 2`. -/
def isAttuned (i : Item) : Bool := i.attunement = 2

/-- `AdvancedAttunement.isAttunable`:
`item.system.attunement === 1 || this.isAttuned(item)`. -/
def isAttunable (i : Item) : Bool := i.attunement = 1 || isAttuned i

end AdvancedAttunement

namespace AdvancedAttunementItemData

/-- `AdvancedAttunementItemData.DEFAULT_WEIGHT`. -/
def DEFAULT_WEIGHT : JsNum := .val 1

/-- `AdvancedAttunementItemData.sanitizeWeight`:
`weight === undefined ? DEFAULT_WEIGHT : Math.max(0, Math.floor(weight))`. -/
def sanitizeWeight (weight : FlagVal) : JsNum :=
  if weight = .undef then DEFAULT_WEIGHT
  else jsMax0 (jsFloor (toNumber weight))

/-- `AdvancedAttunementItemData.getAttunementWeight`: read the weight flag
and sanitize it. -/
def getAttunementWeight (i : Item) : JsNum :=
  sanitizeWeight (i.getFlag AdvancedAttunement.ID AdvancedAttunement.ATTUNEMENT_WEIGHT)

end AdvancedAttunementItemData

/-- The observable outcome of an actor-data updating operation: the updated
actor document, the list of flag writes `(namespace, key, value)` performed,
and the list of burden transitions `(old flag value, new computed number)`
reported to the logger. -/
structure UpdateResult where
  actor : Actor
  writes : List (String × String × FlagVal)
  logs : List (FlagVal × JsNum)
deriving DecidableEq, Repr

namespace AdvancedAttunementActorData

/-- `AdvancedAttunementActorData.getAttunementBurden`: read the burden flag
verbatim. -/
def getAttunementBurden (a : Actor) : FlagVal :=
  a.getFlag AdvancedAttunement.ID AdvancedAttunement.ATTUNEMENT_BURDEN

/-- `AdvancedAttunementActorData.setAttunementBurden`: sanitize with
`Math.max(0, Math.floor(burden))` and persist under the burden flag key. -/
def setAttunementBurden (a : Actor) (burden : JsNum) : UpdateResult :=
  let sanitizedBurden := jsMax0 (jsFloor burden)
  { actor := a.setFlag AdvancedAttunement.ID AdvancedAttunement.ATTUNEMENT_BURDEN
      (toFlag sanitizedBurden)
    writes := [(AdvancedAttunement.ID, AdvancedAttunement.ATTUNEMENT_BURDEN,
      toFlag sanitizedBurden)]
    logs := [] }

/-- The inline computation of `newBurden` in `updateAttunementBurden`:
`this._actor.items.filter(isAttuned).map(new ItemData).map(getAttunementWeight)
.reduce((a, b) => a + b, 0)`. -/
def computeNewBurden (a : Actor) : JsNum :=
  ((a.items.filter AdvancedAttunement.isAttuned).map
    AdvancedAttunementItemData.getAttunementWeight).foldl jsAdd (.val 0)

/-- `AdvancedAttunementActorData.updateAttunementBurden`: read the current
burden, recompute, and `if (newBurden !== currentBurden)` log the transition
and persist via `setAttunementBurden`; otherwise do nothing. -/
def updateAttunementBurden (a : Actor) : UpdateResult :=
  let currentBurden := getAttunementBurden a
  let newBurden := computeNewBurden a
  if strictEqNumFlag newBurden currentBurden then
    { actor := a, writes := [], logs := [] }
  else
    let r := setAttunementBurden a newBurden
    { r with logs := [(currentBurden, newBurden)] }

/-- `AdvancedAttunementActorData.getActor` (static): look the id up in
`game.actors`; return the wrapper only for an existing `character`-typed
actor, otherwise `undefined`. -/
def getActor (g : Game) (actorId : String) : Option Actor :=
  match g.actors.find? (fun a => a.id = actorId) with
  | some actor =>
      if AdvancedAttunement.isPlayerCharacter actor then some actor else none
  | none => none

/-- `AdvancedAttunementActorData.getItem`: look the id up in the actor's
owned items; return the wrapper only for an existing attunable item,
otherwise `null`. -/
def getItem (a : Actor) (itemId : String) : Option Item :=
  match a.items.find? (fun i => i.id = itemId) with
  | some item =>
      if AdvancedAttunement.isAttunable item then some item else none
  | none => none

end AdvancedAttunementActorData

/-! ## Specification-side definitions

These definitions follow the words of the specification (spec §4.1/§4.2 and
§8), over the mathematical non-negative integers; the refinement theorems
below compare them with the embedded code. -/

/-- Whether a stored weight flag value lies in the specification's data
model: absent (`undefined`) or a finite number. -/
def isWfWeight : FlagVal → Bool
  | .undef => true
  | .num _ => true
  | _ => false

/-- Specification-side sanitizer (spec §8): `sanitize(undefined) = 1` and
`sanitize(w) = max(0, floor(w))` for numeric `w`, as a non-negative
integer.  Values outside the spec's data model (rejected by `isWfWeight`)
are mapped to an arbitrary value (0). -/
def specSanitize : FlagVal → ℕ
  | .undef => 1
  | .num q => (max 0 ⌊q⌋).toNat
  | _ => 0

/-- Specification-side `getWeight` (spec §4.1): the sanitized persisted
weight of the item. -/
def specItemWeight (i : Item) : ℕ :=
  specSanitize (i.getFlag AdvancedAttunement.ID AdvancedAttunement.ATTUNEMENT_WEIGHT)

/-- Specification-side burden (spec §4.2 step 2): owned items filtered by
the *attuned* predicate, mapped to their weight, then summed (empty sum
`0`). -/
def specBurden (a : Actor) : ℕ :=
  ((a.items.filter AdvancedAttunement.isAttuned).map specItemWeight).sum

/-- The spec's well-formedness assumption on a character's persisted state
(spec §3 invariant): every attuned item's stored weight flag is absent or a
finite number. -/
def WfWeights (a : Actor) : Prop :=
  ∀ i ∈ a.items, AdvancedAttunement.isAttuned i = true →
    isWfWeight (i.getFlag AdvancedAttunement.ID AdvancedAttunement.ATTUNEMENT_WEIGHT) = true

instance (a : Actor) : Decidable (WfWeights a) := by
  unfold WfWeights; infer_instance

/-! ## Concrete fixtures

Small concrete documents used by witness and counterexample theorems. -/

/-- An attuned item with stored weight 2. -/
def c1ItemA : Item :=
  ⟨"t1", "Tome", 2, [((AdvancedAttunement.ID, AdvancedAttunement.ATTUNEMENT_WEIGHT), .num 2)]⟩

/-- An attuned item with stored weight 1. -/
def c1ItemB : Item :=
  ⟨"t2", "Ring", 2, [((AdvancedAttunement.ID, AdvancedAttunement.ATTUNEMENT_WEIGHT), .num 1)]⟩

/-- An attuned item with no stored weight (defaults to 1). -/
def c1ItemC : Item := ⟨"t3", "Rod", 2, []⟩

/-- A character with attuned items of stored weights `[2, 1, absent]`. -/
def c1Hero : Actor := ⟨"h1", "Hero", "character", [c1ItemA, c1ItemB, c1ItemC], []⟩

/-- A character owning one item that is not attuned. -/
def c1Empty : Actor := ⟨"h0", "Newbie", "character", [⟨"x1", "Sword", 0, []⟩], []⟩

/-- A character with attuned items of weights `[2, 1, absent]` and a stale
stored burden of 5. -/
def c2HeroStale : Actor :=
  ⟨"h2", "Stale", "character", [c1ItemA, c1ItemB, c1ItemC],
    [((AdvancedAttunement.ID, AdvancedAttunement.ATTUNEMENT_BURDEN), .num 5)]⟩

/-- A character with attuned items of weights `[2, 1, absent]` and an
up-to-date stored burden of 4. -/
def c2HeroFresh : Actor :=
  ⟨"h2f", "Fresh", "character", [c1ItemA, c1ItemB, c1ItemC],
    [((AdvancedAttunement.ID, AdvancedAttunement.ATTUNEMENT_BURDEN), .num 4)]⟩

/-- A character with no items and a stored burden already equal to the
computed burden 0. -/
def c3Calm : Actor :=
  ⟨"h3", "Calm", "character", [],
    [((AdvancedAttunement.ID, AdvancedAttunement.ATTUNEMENT_BURDEN), .num 0)]⟩

/-- An attuned item with a non-numeric stored weight. -/
def c3NanItem : Item :=
  ⟨"k1", "Cursed Blade", 2,
    [((AdvancedAttunement.ID, AdvancedAttunement.ATTUNEMENT_WEIGHT), .strBad "oops")]⟩

/-- A character owning `c3NanItem`, whose computed burden is NaN. -/
def c3Cursed : Actor := ⟨"h4", "Cursed", "character", [c3NanItem], []⟩

/-- A well-formed character for the amended-idempotence witness: one attuned
item of stored weight 2, burden never yet written. -/
def c3Hero : Actor :=
  ⟨"h5", "Steady", "character",
    [⟨"t5", "Orb", 2, [((AdvancedAttunement.ID, AdvancedAttunement.ATTUNEMENT_WEIGHT), .num 2)]⟩], []⟩

/-- An item with no stored weight flag. -/
def c4ItemNone : Item := ⟨"w0", "Plain", 1, []⟩

/-- An item with stored weight `-2.7`. -/
def c4ItemNeg : Item :=
  ⟨"w1", "Odd", 1, [((AdvancedAttunement.ID, AdvancedAttunement.ATTUNEMENT_WEIGHT), .num (-27/10))]⟩

/-- An item with stored weight `3.9`. -/
def c4ItemPos : Item :=
  ⟨"w2", "Heavy", 1, [((AdvancedAttunement.ID, AdvancedAttunement.ATTUNEMENT_WEIGHT), .num (39/10))]⟩

/-- An item whose stored weight flag is a non-numeric string. -/
def c5Item : Item :=
  ⟨"w9", "Cursed Idol", 2,
    [((AdvancedAttunement.ID, AdvancedAttunement.ATTUNEMENT_WEIGHT), .strBad "heavy")]⟩

/-- A character owning an attunable (status 1) and a non-attunable (status 0)
item. -/
def c6Sword : Item := ⟨"i1", "Sword of Binding", 1, []⟩

/-- A non-attunable owned item. -/
def c6Torch : Item := ⟨"i2", "Torch", 0, []⟩

/-- The owner of `c6Sword` and `c6Torch`. -/
def c6Hero : Actor := ⟨"h6", "Owner", "character", [c6Sword, c6Torch], []⟩

/-- A player character registered in the game. -/
def c7Pc : Actor := ⟨"a1", "Alice", "character", [], []⟩

/-- An NPC-typed actor registered in the game. -/
def c7Npc : Actor := ⟨"a2", "Goblin", "npc", [], []⟩

/-- A game registry holding one character and one NPC. -/
def c7Game : Game := ⟨[c7Pc, c7Npc]⟩

/-- A character with no items and no flags at all. -/
def c9Hero : Actor := ⟨"h9", "Blank", "character", [], []⟩

/-- A character used to witness the frame property: one attuned weighted
item, one unrelated flag, stale stored burden. -/
def c10Hero : Actor :=
  ⟨"h10", "Framed", "character",
    [⟨"t10", "Amulet", 2, [((AdvancedAttunement.ID, AdvancedAttunement.ATTUNEMENT_WEIGHT), .num 3)]⟩],
    [(("other-module", "other-key"), .num 7)]⟩

/-! ## Helper lemmas -/

section Helpers

open AdvancedAttunement AdvancedAttunementItemData AdvancedAttunementActorData

@[simp] lemma strictEqNumFlag_undef (x : JsNum) : strictEqNumFlag x .undef = false := by
  cases x <;> rfl

lemma Actor.getFlag_setFlag_same (a : Actor) (ns key : String) (v : FlagVal) :
    (a.setFlag ns key v).getFlag ns key = v := by
  simp [Actor.getFlag, Actor.setFlag, List.find?]

lemma Actor.getFlag_setFlag_ne (a : Actor) (ns key ns₂ key₂ : String) (v : FlagVal)
    (h : ¬ (ns₂ = ns ∧ key₂ = key)) :
    (a.setFlag ns key v).getFlag ns₂ key₂ = a.getFlag ns₂ key₂ := by
  have hne : ((ns, key) : String × String) ≠ (ns₂, key₂) := by
    intro hc
    exact h ⟨(Prod.mk.injEq _ _ _ _ ▸ hc).1.symm, (Prod.mk.injEq _ _ _ _ ▸ hc).2.symm⟩
  simp [Actor.getFlag, Actor.setFlag, List.find?, hne]

lemma Actor.items_setFlag (a : Actor) (ns key : String) (v : FlagVal) :
    (a.setFlag ns key v).items = a.items := rfl

/-- The JavaScript number carrying a mathematical natural. -/
def natVal (n : ℕ) : JsNum := .val (n : ℚ)

lemma cast_toNat_max_floor (q : ℚ) : (((max 0 ⌊q⌋).toNat : ℕ) : ℚ) = max 0 (⌊q⌋ : ℚ) := by
  have h0 : (0 : ℤ) ≤ max 0 ⌊q⌋ := le_max_left 0 ⌊q⌋
  have h1 : (((max 0 ⌊q⌋).toNat : ℤ) : ℚ) = ((max 0 ⌊q⌋ : ℤ) : ℚ) := by
    exact_mod_cast congrArg (fun z : ℤ => (z : ℚ)) (Int.toNat_of_nonneg h0)
  push_cast at h1 ⊢
  rw [h1]

lemma sanitizeWeight_wf (v : FlagVal) (h : isWfWeight v = true) :
    sanitizeWeight v = .val (specSanitize v) := by
  cases v <;> simp_all [isWfWeight, sanitizeWeight, specSanitize, toNumber, jsFloor, jsMax0,
    DEFAULT_WEIGHT, cast_toNat_max_floor]

lemma getAttunementWeight_wf (i : Item)
    (h : isWfWeight (i.getFlag AdvancedAttunement.ID AdvancedAttunement.ATTUNEMENT_WEIGHT) = true) :
    getAttunementWeight i = .val (specItemWeight i) := by
  unfold getAttunementWeight specItemWeight
  exact sanitizeWeight_wf _ h

lemma foldl_jsAdd_natvals (l : List ℕ) (c : ℚ) :
    (l.map natVal).foldl jsAdd (.val c) = .val (c + l.sum) := by
  induction l generalizing c with
  | nil => simp
  | cons x xs ih =>
      simp only [List.map_cons, List.foldl_cons, natVal, jsAdd, List.sum_cons, ih]
      congr 1
      push_cast
      ring

lemma computeNewBurden_wf (a : Actor) (h : WfWeights a) :
    computeNewBurden a = .val (specBurden a) := by
  unfold computeNewBurden specBurden
  have hmap : (a.items.filter isAttuned).map getAttunementWeight
      = ((a.items.filter isAttuned).map specItemWeight).map natVal := by
    rw [List.map_map]
    apply List.map_congr_left
    intro i hi
    have hmem := List.mem_filter.mp hi
    exact getAttunementWeight_wf i (h i hmem.1 hmem.2)
  rw [hmap, foldl_jsAdd_natvals]
  simp

@[simp] lemma sanitizeWeight_undef : sanitizeWeight .undef = .val 1 := rfl

@[simp] lemma sanitizeWeight_num (q : ℚ) :
    sanitizeWeight (.num q) = .val (max 0 ((⌊q⌋ : ℤ) : ℚ)) := by
  rw [sanitizeWeight, if_neg (fun h => FlagVal.noConfusion h)]
  rfl

@[simp] lemma sanitizeWeight_strBad (s : String) : sanitizeWeight (.strBad s) = .nan := by
  rw [sanitizeWeight, if_neg (fun h => FlagVal.noConfusion h)]
  rfl

@[simp] lemma sanitizeWeight_nullV : sanitizeWeight .nullV = .val 0 := by
  rw [sanitizeWeight, if_neg (fun h => FlagVal.noConfusion h)]
  show JsNum.val (max 0 ((⌊(0 : ℚ)⌋ : ℤ) : ℚ)) = JsNum.val 0
  norm_num

@[simp] lemma jsAdd_val_val (a b : ℚ) : jsAdd (.val a) (.val b) = .val (a + b) := rfl

@[simp] lemma jsAdd_val_nan (a : ℚ) : jsAdd (.val a) .nan = .nan := rfl

@[simp] lemma strictEqNumFlag_val_num (q r : ℚ) :
    strictEqNumFlag (.val q) (.num r) = decide (q = r) := rfl

@[simp] lemma strictEqNumFlag_nan_left (v : FlagVal) : strictEqNumFlag .nan v = false := by
  cases v <;> rfl

@[simp] lemma strictEqNumFlag_val_nanFlag (q : ℚ) :
    strictEqNumFlag (.val q) .nan = false := rfl

@[simp] lemma jsAdd_nan_left (y : JsNum) : jsAdd .nan y = .nan := by
  cases y <;> rfl

lemma foldl_jsAdd_nan (l : List JsNum) : l.foldl jsAdd .nan = .nan := by
  induction l with
  | nil => rfl
  | cons x xs ih => simp [List.foldl_cons, jsAdd_nan_left, ih]

lemma jsMax0_jsFloor_shape (x : JsNum) :
    jsMax0 (jsFloor x) = .nan ∨ ∃ n : ℕ, jsMax0 (jsFloor x) = natVal n := by
  cases x with
  | nan => exact Or.inl rfl
  | val q =>
      refine Or.inr ⟨(max 0 ⌊q⌋).toNat, ?_⟩
      simp [jsFloor, jsMax0, natVal, cast_toNat_max_floor]

lemma sanitizeWeight_shape (v : FlagVal) :
    sanitizeWeight v = .nan ∨ ∃ n : ℕ, sanitizeWeight v = natVal n := by
  by_cases hv : v = .undef
  · exact Or.inr ⟨1, by simp [hv, sanitizeWeight, DEFAULT_WEIGHT, natVal]⟩
  · rw [sanitizeWeight, if_neg hv]
    exact jsMax0_jsFloor_shape (toNumber v)

lemma foldl_jsAdd_shape (l : List JsNum)
    (h : ∀ x ∈ l, x = .nan ∨ ∃ n : ℕ, x = natVal n) (c : ℕ) :
    l.foldl jsAdd (natVal c) = .nan ∨ ∃ n : ℕ, l.foldl jsAdd (natVal c) = natVal n := by
  induction l generalizing c with
  | nil => exact Or.inr ⟨c, rfl⟩
  | cons x xs ih =>
      rcases h x (List.mem_cons_self x xs) with hx | ⟨n, hx⟩
      · subst hx
        rw [List.foldl_cons]
        have : jsAdd (natVal c) .nan = .nan := rfl
        rw [this, foldl_jsAdd_nan]
        exact Or.inl rfl
      · subst hx
        rw [List.foldl_cons]
        have : jsAdd (natVal c) (natVal n) = natVal (c + n) := by
          simp [jsAdd, natVal]
        rw [this]
        exact ih (fun y hy => h y (List.mem_cons_of_mem _ hy)) (c + n)

lemma computeNewBurden_shape (a : Actor) :
    computeNewBurden a = .nan ∨ ∃ n : ℕ, computeNewBurden a = natVal n := by
  have h0 : (JsNum.val 0) = natVal 0 := by simp [natVal]
  unfold computeNewBurden
  rw [h0]
  refine foldl_jsAdd_shape _ ?_ 0
  intro x hx
  rcases List.mem_map.mp hx with ⟨i, _, hi⟩
  rw [← hi]
  exact sanitizeWeight_shape _

lemma jsMax0_jsFloor_id (x : JsNum) (h : x = .nan ∨ ∃ n : ℕ, x = natVal n) :
    jsMax0 (jsFloor x) = x := by
  rcases h with h | ⟨n, h⟩ <;> subst h
  · rfl
  · simp [natVal, jsFloor, jsMax0, Int.floor_natCast]

lemma jsMax0_jsFloor_computeNewBurden (a : Actor) :
    jsMax0 (jsFloor (computeNewBurden a)) = computeNewBurden a :=
  jsMax0_jsFloor_id _ (computeNewBurden_shape a)

lemma strictEqNumFlag_natVal (n : ℕ) (v : FlagVal) :
    strictEqNumFlag (natVal n) v = true ↔ v = .num ((n : ℕ) : ℚ) := by
  cases v <;> simp [strictEqNumFlag, natVal, eq_comm]

lemma computeNewBurden_setFlag (a : Actor) (ns key : String) (v : FlagVal) :
    computeNewBurden (a.setFlag ns key v) = computeNewBurden a := rfl

lemma getAttunementBurden_setFlag_same (a : Actor) (v : FlagVal) :
    getAttunementBurden
      (a.setFlag AdvancedAttunement.ID AdvancedAttunement.ATTUNEMENT_BURDEN v) = v :=
  Actor.getFlag_setFlag_same a _ _ v

lemma updateAttunementBurden_of_strictEq (a : Actor)
    (h : strictEqNumFlag (computeNewBurden a) (getAttunementBurden a) = true) :
    updateAttunementBurden a = ⟨a, [], []⟩ := by
  rw [updateAttunementBurden]
  simp only [h, if_true]

lemma updateAttunementBurden_of_not_strictEq (a : Actor)
    (h : strictEqNumFlag (computeNewBurden a) (getAttunementBurden a) = false) :
    updateAttunementBurden a =
      { actor := a.setFlag AdvancedAttunement.ID AdvancedAttunement.ATTUNEMENT_BURDEN
          (toFlag (computeNewBurden a))
        writes := [(AdvancedAttunement.ID, AdvancedAttunement.ATTUNEMENT_BURDEN,
          toFlag (computeNewBurden a))]
        logs := [(getAttunementBurden a, computeNewBurden a)] } := by
  rw [updateAttunementBurden]
  simp only [h, Bool.false_eq_true, if_false, setAttunementBurden,
    jsMax0_jsFloor_computeNewBurden a]

end Helpers

/-! ## Claim theorems -/

section Claims

open AdvancedAttunement AdvancedAttunementItemData AdvancedAttunementActorData

/-- C1: for every character whose attuned items' stored weight flags lie in
the spec's data model, `updateAttunementBurden` computes the new burden as
the sum of `getAttunementWeight` over exactly those owned items whose
attunement status is Attuned (status 2): the items are filtered by the
attuned predicate, mapped to their weight, and summed, with the empty sum
equal to 0 (the right-hand side is the mathematical filter/map/sum of the
spec-side weights). -/
theorem burden_is_sum_of_attuned_weights (a : Actor) (h : WfWeights a) :
    computeNewBurden a =
      JsNum.val ((((a.items.filter isAttuned).map specItemWeight).sum : ℕ) : ℚ) :=
  computeNewBurden_wf a h

/-- Witness for C1: a character with attuned items of stored weights
`[2, 1, absent]` yields burden 4, and a character with zero attuned items
yields burden 0. -/
theorem burden_is_sum_of_attuned_weights_witness :
    WfWeights c1Hero ∧ computeNewBurden c1Hero = JsNum.val 4 ∧
      computeNewBurden c1Empty = JsNum.val 0 := by
  refine ⟨by decide, (burden_is_sum_of_attuned_weights c1Hero (by decide)).trans ?_,
    (burden_is_sum_of_attuned_weights c1Empty (by decide)).trans ?_⟩
  · norm_num [c1Hero, c1ItemA, c1ItemB, c1ItemC, isAttuned, specItemWeight, specSanitize,
      Item.getFlag, ID, ATTUNEMENT_WEIGHT, List.find?, List.filter,
      show Int.toNat 2 = 2 from rfl]
  · norm_num [c1Empty, isAttuned, List.filter]

/-- C4: `getAttunementWeight` returns the default weight 1 when no weight
value is persisted for the item, and `max(0, floor(value))` when a numeric
value is persisted. -/
theorem getWeight_default_and_clamp (i : Item) :
    (i.getFlag AdvancedAttunement.ID AdvancedAttunement.ATTUNEMENT_WEIGHT = .undef →
      getAttunementWeight i = JsNum.val 1) ∧
    ∀ q : ℚ, i.getFlag AdvancedAttunement.ID AdvancedAttunement.ATTUNEMENT_WEIGHT = .num q →
      getAttunementWeight i = JsNum.val (max 0 ((⌊q⌋ : ℤ) : ℚ)) := by
  constructor
  · intro h
    rw [getAttunementWeight, h]
    rfl
  · intro q h
    rw [getAttunementWeight, h, sanitizeWeight_num]

/-- Witness for C4: an item with no stored weight yields 1, stored weight
`-2.7` yields 0, and stored weight `3.9` yields 3. -/
theorem getWeight_default_and_clamp_witness :
    getAttunementWeight c4ItemNone = JsNum.val 1 ∧
      getAttunementWeight c4ItemNeg = JsNum.val 0 ∧
      getAttunementWeight c4ItemPos = JsNum.val 3 := by
  refine ⟨(getWeight_default_and_clamp c4ItemNone).1 rfl,
    ((getWeight_default_and_clamp c4ItemNeg).2 (-27/10) rfl).trans ?_,
    ((getWeight_default_and_clamp c4ItemPos).2 (39/10) rfl).trans ?_⟩ <;> norm_num

/-- C5 counterexample: a stored weight that is a non-numeric string is not
sanitized to a non-negative integer — `sanitizeWeight` (and hence
`getAttunementWeight`) returns the number NaN, which is surfaced to the
caller ('NaN' is a distinct constructor from every `JsNum.val n`). -/
theorem sanitizeWeight_nonNumeric_not_integer :
    sanitizeWeight (.strBad "heavy") = JsNum.nan ∧
      getAttunementWeight c5Item = JsNum.nan :=
  ⟨rfl, rfl⟩

/-- C5 (amended): for every stored or supplied value that is absent or whose
JavaScript numeric coercion is not NaN (absent, finite numbers, null,
booleans, numeric strings), the result of `sanitizeWeight` is a
non-negative integer, and sanitization is total (never an error); a value
coercing to NaN (non-numeric string, NaN, plain object) is surfaced to the
caller as NaN instead. -/
theorem sanitizeWeight_nonneg_int_unless_nan (v : FlagVal)
    (h : v = .undef ∨ toNumber v ≠ .nan) :
    ∃ n : ℕ, sanitizeWeight v = JsNum.val (n : ℚ) := by
  rcases sanitizeWeight_shape v with hs | ⟨n, hs⟩
  · exfalso
    by_cases hv : v = .undef
    · rw [hv, sanitizeWeight_undef] at hs
      exact JsNum.noConfusion hs
    · rcases h with h | h
      · exact hv h
      · rw [sanitizeWeight, if_neg hv] at hs
        cases htn : toNumber v with
        | nan => exact h htn
        | val q =>
            rw [htn] at hs
            simp [jsFloor, jsMax0] at hs
  · exact ⟨n, hs⟩

/-- Witness for C5 (amended): `null` coerces to 0, not NaN, and is
sanitized to a non-negative integer. -/
theorem sanitizeWeight_nonneg_int_unless_nan_witness :
    (FlagVal.nullV = .undef ∨ toNumber .nullV ≠ .nan) ∧
      ∃ n : ℕ, sanitizeWeight .nullV = JsNum.val (n : ℚ) :=
  ⟨Or.inr (by decide), sanitizeWeight_nonneg_int_unless_nan .nullV (Or.inr (by decide))⟩

/-- C8: `getAttunementBurden` returns the persisted burden flag value
verbatim — whatever value was last written under the burden key is read
back unchanged (no sanitization, defaulting or clamping on read), a write
under the (different) weight key leaves the read unchanged, and a character
with an empty flag store reads the absent value `undefined`. -/
theorem getBurden_verbatim :
    (∀ (a : Actor) (v : FlagVal),
      getAttunementBurden
          (a.setFlag AdvancedAttunement.ID AdvancedAttunement.ATTUNEMENT_BURDEN v) = v) ∧
    (∀ (a : Actor) (v : FlagVal),
      getAttunementBurden
          (a.setFlag AdvancedAttunement.ID AdvancedAttunement.ATTUNEMENT_WEIGHT v) =
        getAttunementBurden a) ∧
    ∀ (i nm ty : String) (items : List Item),
      getAttunementBurden ⟨i, nm, ty, items, []⟩ = .undef := by
  refine ⟨fun a v => ?_, fun a v => ?_, fun i nm ty items => rfl⟩
  · exact Actor.getFlag_setFlag_same a _ _ v
  · exact Actor.getFlag_setFlag_ne a _ _ _ _ v (by decide)

/-- C9: for every character whose persisted burden flag is absent,
`updateAttunementBurden` performs a persistence write — the computed number
is never strictly equal to `undefined`, so the change gate always passes
and the computed burden (sanitization included) is persisted. -/
theorem first_recompute_always_writes (a : Actor)
    (h : getAttunementBurden a = .undef) :
    (updateAttunementBurden a).writes =
      [(AdvancedAttunement.ID, AdvancedAttunement.ATTUNEMENT_BURDEN,
        toFlag (computeNewBurden a))] := by
  have hg : strictEqNumFlag (computeNewBurden a) (getAttunementBurden a) = false := by
    rw [h]
    exact strictEqNumFlag_undef _
  rw [updateAttunementBurden_of_not_strictEq a hg]

/-- Witness for C9: the very first recompute on a character with zero
attuned items writes burden 0 rather than being a no-op. -/
theorem first_recompute_always_writes_witness :
    getAttunementBurden c9Hero = .undef ∧
      (updateAttunementBurden c9Hero).writes =
        [(AdvancedAttunement.ID, AdvancedAttunement.ATTUNEMENT_BURDEN, FlagVal.num 0)] :=
  ⟨rfl, (first_recompute_always_writes c9Hero rfl).trans rfl⟩

/-- The spec-side burden of the stale-burden fixture is 4. -/
lemma specBurden_c2Stale : specBurden c2HeroStale = 4 := by
  norm_num [specBurden, c2HeroStale, c1ItemA, c1ItemB, c1ItemC, isAttuned, specItemWeight,
    specSanitize, Item.getFlag, ID, ATTUNEMENT_WEIGHT, List.find?, List.filter]
  omega

/-- The spec-side burden of the fresh-burden fixture is 4. -/
lemma specBurden_c2Fresh : specBurden c2HeroFresh = 4 := by
  norm_num [specBurden, c2HeroFresh, c1ItemA, c1ItemB, c1ItemC, isAttuned, specItemWeight,
    specSanitize, Item.getFlag, ID, ATTUNEMENT_WEIGHT, List.find?, List.filter]
  omega

/-- C2: for every character whose attuned items' stored weight flags lie in
the spec's data model: if the computed burden differs from the currently
persisted burden flag, exactly one persistence write of the new value
occurs and the transition old → new is reported to the logger; if it
equals the persisted value, no write occurs and the actor document is
unchanged. -/
theorem recompute_persists_only_on_change (a : Actor) (h : WfWeights a) :
    (getAttunementBurden a ≠ .num ((specBurden a : ℕ) : ℚ) →
      (updateAttunementBurden a).writes =
          [(AdvancedAttunement.ID, AdvancedAttunement.ATTUNEMENT_BURDEN,
            FlagVal.num ((specBurden a : ℕ) : ℚ))] ∧
        getAttunementBurden (updateAttunementBurden a).actor =
          .num ((specBurden a : ℕ) : ℚ) ∧
        (updateAttunementBurden a).logs =
          [(getAttunementBurden a, JsNum.val ((specBurden a : ℕ) : ℚ))]) ∧
    (getAttunementBurden a = .num ((specBurden a : ℕ) : ℚ) →
      (updateAttunementBurden a).writes = [] ∧ (updateAttunementBurden a).actor = a) := by
  have hcb : computeNewBurden a = natVal (specBurden a) := computeNewBurden_wf a h
  constructor
  · intro hne
    have hg : strictEqNumFlag (computeNewBurden a) (getAttunementBurden a) = false := by
      rw [hcb]
      cases hb : strictEqNumFlag (natVal (specBurden a)) (getAttunementBurden a) with
      | false => rfl
      | true => exact absurd ((strictEqNumFlag_natVal _ _).mp hb) hne
    rw [updateAttunementBurden_of_not_strictEq a hg]
    refine ⟨?_, ?_, ?_⟩
    · rw [hcb]
      rfl
    · exact (Actor.getFlag_setFlag_same a _ _ _).trans (by rw [hcb]; rfl)
    · rw [hcb]
      rfl
  · intro heq
    have hg : strictEqNumFlag (computeNewBurden a) (getAttunementBurden a) = true := by
      rw [hcb]
      exact (strictEqNumFlag_natVal _ _).mpr heq
    rw [updateAttunementBurden_of_strictEq a hg]
    exact ⟨rfl, rfl⟩

/-- Witness for C2: with attuned weights `[2, 1, absent]` and stored burden
5, one write to 4 occurs and the transition 5 → 4 is logged; with stored
burden 4, no write occurs. -/
theorem recompute_persists_only_on_change_witness :
    WfWeights c2HeroStale ∧
      (updateAttunementBurden c2HeroStale).writes =
        [(AdvancedAttunement.ID, AdvancedAttunement.ATTUNEMENT_BURDEN, FlagVal.num 4)] ∧
      (updateAttunementBurden c2HeroStale).logs = [(FlagVal.num 5, JsNum.val 4)] ∧
      (updateAttunementBurden c2HeroFresh).writes = [] := by
  have hne : getAttunementBurden c2HeroStale ≠
      FlagVal.num ((specBurden c2HeroStale : ℕ) : ℚ) := by
    rw [specBurden_c2Stale, show getAttunementBurden c2HeroStale = FlagVal.num 5 from rfl]
    norm_num
  obtain ⟨hwrites, _, hlogs⟩ :=
    (recompute_persists_only_on_change c2HeroStale (by decide)).1 hne
  have heq : getAttunementBurden c2HeroFresh =
      FlagVal.num ((specBurden c2HeroFresh : ℕ) : ℚ) := by
    rw [specBurden_c2Fresh, show getAttunementBurden c2HeroFresh = FlagVal.num 4 from rfl]
    norm_num
  refine ⟨by decide, hwrites.trans ?_, hlogs.trans ?_,
    ((recompute_persists_only_on_change c2HeroFresh (by decide)).2 heq).1⟩
  · rw [specBurden_c2Stale]
    norm_num
  · rw [specBurden_c2Stale, show getAttunementBurden c2HeroStale = FlagVal.num 5 from rfl]
    norm_num

/-- C3 counterexample: two successive recomputations with no intervening
item change do not always perform exactly one persistence write in total —
a character whose stored burden already equals the computed burden gets
zero writes, and a character with a NaN-weighted attuned item gets a write
on both calls (NaN is never strictly equal to anything, so the change gate
never blocks). -/
theorem recompute_twice_not_single_write :
    (updateAttunementBurden c3Calm).writes.length +
        (updateAttunementBurden (updateAttunementBurden c3Calm).actor).writes.length = 0 ∧
      (updateAttunementBurden c3Cursed).writes.length +
        (updateAttunementBurden (updateAttunementBurden c3Cursed).actor).writes.length = 2 := by
  constructor
  · have hg : strictEqNumFlag (computeNewBurden c3Calm) (getAttunementBurden c3Calm) = true := by
      rw [show computeNewBurden c3Calm = JsNum.val 0 from rfl,
        show getAttunementBurden c3Calm = FlagVal.num 0 from rfl]
      simp
    have h1 := updateAttunementBurden_of_strictEq c3Calm hg
    rw [h1]
    simp [h1]
  · have hc1 : computeNewBurden c3Cursed = .nan := rfl
    have hg1 : strictEqNumFlag (computeNewBurden c3Cursed) (getAttunementBurden c3Cursed)
        = false := by
      rw [hc1]
      simp
    have h1 := updateAttunementBurden_of_not_strictEq c3Cursed hg1
    have hg2 : strictEqNumFlag
        (computeNewBurden ((updateAttunementBurden c3Cursed).actor))
        (getAttunementBurden ((updateAttunementBurden c3Cursed).actor)) = false := by
      rw [h1]
      show strictEqNumFlag
        (computeNewBurden (c3Cursed.setFlag AdvancedAttunement.ID
          AdvancedAttunement.ATTUNEMENT_BURDEN (toFlag (computeNewBurden c3Cursed))))
        (getAttunementBurden (c3Cursed.setFlag AdvancedAttunement.ID
          AdvancedAttunement.ATTUNEMENT_BURDEN (toFlag (computeNewBurden c3Cursed)))) = false
      rw [computeNewBurden_setFlag, hc1]
      simp
    have h2 := updateAttunementBurden_of_not_strictEq _ hg2
    rw [h2, h1]
    simp

/-- C3 (amended): for every character whose attuned items' stored weight
flags are absent or finite numbers, calling `updateAttunementBurden` twice
in succession with no intervening item change performs at most one
persistence write in total: the second call computes the same burden as the
first, the change gate blocks it, and it is a no-op on persisted state
(zero writes happen overall when the stored burden already equals the
computed one). -/
theorem recompute_idempotent_when_wf (a : Actor) (h : WfWeights a) :
    (updateAttunementBurden (updateAttunementBurden a).actor).writes = [] ∧
      (updateAttunementBurden (updateAttunementBurden a).actor).actor =
        (updateAttunementBurden a).actor ∧
      (updateAttunementBurden a).writes.length ≤ 1 := by
  have hcb : computeNewBurden a = natVal (specBurden a) := computeNewBurden_wf a h
  cases hg : strictEqNumFlag (computeNewBurden a) (getAttunementBurden a) with
  | true =>
      have h1 := updateAttunementBurden_of_strictEq a hg
      rw [h1]
      simp [h1]
  | false =>
      have h1 := updateAttunementBurden_of_not_strictEq a hg
      have hact : (updateAttunementBurden a).actor =
          a.setFlag AdvancedAttunement.ID AdvancedAttunement.ATTUNEMENT_BURDEN
            (toFlag (computeNewBurden a)) := by
        rw [h1]
      have hg2 : strictEqNumFlag
          (computeNewBurden ((updateAttunementBurden a).actor))
          (getAttunementBurden ((updateAttunementBurden a).actor)) = true := by
        rw [hact, computeNewBurden_setFlag, getAttunementBurden_setFlag_same, hcb]
        exact (strictEqNumFlag_natVal _ _).mpr rfl
      have h2 := updateAttunementBurden_of_strictEq _ hg2
      rw [h2, h1]
      simp

/-- Witness for C3 (amended): a well-formed character with one attuned item
of stored weight 2 and no stored burden yet. -/
theorem recompute_idempotent_when_wf_witness :
    WfWeights c3Hero ∧
      (updateAttunementBurden (updateAttunementBurden c3Hero).actor).writes = [] ∧
      (updateAttunementBurden c3Hero).writes.length ≤ 1 :=
  ⟨by decide, (recompute_idempotent_when_wf c3Hero (by decide)).1,
    (recompute_idempotent_when_wf c3Hero (by decide)).2.2⟩

/-- C6: `getItem` returns a record exactly when the identified item exists
among the character's owned items and is attunable (status
RequiresAttunement or Attuned); in every other case it signals absence (it
is total, hence never throws).  The owned-item ids are assumed pairwise
distinct, as the host's embedded-document collections guarantee. -/
theorem getItem_some_iff_owned_attunable (a : Actor) (itemId : String)
    (h : (a.items.map Item.id).Nodup) :
    (∃ i, getItem a itemId = some i) ↔
      ∃ i ∈ a.items, i.id = itemId ∧ isAttunable i = true := by
  cases hf : a.items.find? (fun i => i.id = itemId) with
  | none =>
      constructor
      · rintro ⟨i, hi⟩
        rw [getItem, hf] at hi
        exact Option.noConfusion hi
      · rintro ⟨i, hi, hid, _⟩
        have hnone := List.find?_eq_none.mp hf i hi
        simp [hid] at hnone
  | some j =>
      have hjid : j.id = itemId := by simpa using List.find?_some hf
      have hjmem : j ∈ a.items := List.mem_of_find?_eq_some hf
      by_cases hat : isAttunable j = true
      · constructor
        · intro _
          exact ⟨j, hjmem, hjid, hat⟩
        · intro _
          refine ⟨j, ?_⟩
          rw [getItem, hf]
          exact if_pos hat
      · constructor
        · rintro ⟨i, hi⟩
          rw [getItem, hf] at hi
          have hi₂ : (if isAttunable j = true then some j else none) = some i := hi
          rw [if_neg hat] at hi₂
          exact Option.noConfusion hi₂
        · rintro ⟨i, hi, hid, hati⟩
          exact absurd (List.inj_on_of_nodup_map h hi hjmem (by rw [hid, hjid]) ▸ hati) hat

/-- Witness for C6: a missing id and a non-attunable owned id give absence;
an attunable owned id gives the record. -/
theorem getItem_some_iff_owned_attunable_witness :
    ((∃ i, getItem c6Hero "missing" = some i) ↔
      ∃ i ∈ c6Hero.items, i.id = "missing" ∧ isAttunable i = true) ∧
      getItem c6Hero "i2" = none ∧ getItem c6Hero "i1" = some c6Sword :=
  ⟨getItem_some_iff_owned_attunable c6Hero "missing" (by decide), by decide, by decide⟩

/-- C7: `getActor` returns a record exactly when the identified actor
exists and is of type `"character"`; for a missing id or a
non-`"character"`-typed actor it signals absence, not an error.  Actor ids
in the registry are assumed pairwise distinct, as the host guarantees. -/
theorem getActor_some_iff_character (g : Game) (actorId : String)
    (h : (g.actors.map Actor.id).Nodup) :
    (∃ a, getActor g actorId = some a) ↔
      ∃ a ∈ g.actors, a.id = actorId ∧ isPlayerCharacter a = true := by
  cases hf : g.actors.find? (fun a => a.id = actorId) with
  | none =>
      constructor
      · rintro ⟨a, ha⟩
        rw [getActor, hf] at ha
        exact Option.noConfusion ha
      · rintro ⟨a, ha, hid, _⟩
        have hnone := List.find?_eq_none.mp hf a ha
        simp [hid] at hnone
  | some b =>
      have hbid : b.id = actorId := by simpa using List.find?_some hf
      have hbmem : b ∈ g.actors := List.mem_of_find?_eq_some hf
      by_cases hpc : isPlayerCharacter b = true
      · constructor
        · intro _
          exact ⟨b, hbmem, hbid, hpc⟩
        · intro _
          refine ⟨b, ?_⟩
          rw [getActor, hf]
          exact if_pos hpc
      · constructor
        · rintro ⟨a, ha⟩
          rw [getActor, hf] at ha
          have ha₂ : (if isPlayerCharacter b = true then some b else none) = some a := ha
          rw [if_neg hpc] at ha₂
          exact Option.noConfusion ha₂
        · rintro ⟨a, ha, hid, hpca⟩
          exact absurd (List.inj_on_of_nodup_map h ha hbmem (by rw [hid, hbid]) ▸ hpca) hpc

/-- Witness for C7: an NPC-typed actor id gives absence, a character-typed
id gives the record, a missing id satisfies the equivalence. -/
theorem getActor_some_iff_character_witness :
    ((∃ a, getActor c7Game "missing" = some a) ↔
      ∃ a ∈ c7Game.actors, a.id = "missing" ∧ isPlayerCharacter a = true) ∧
      getActor c7Game "a2" = none ∧ getActor c7Game "a1" = some c7Pc :=
  ⟨getActor_some_iff_character c7Game "missing" (by decide), by decide, by decide⟩

/-- C10: `updateAttunementBurden` mutates at most the character's burden
flag: the owned items (hence every item's weight flag) are untouched, every
other flag key reads unchanged, and every write performed is of the burden
key with exactly the computed value (the `setAttunementBurden` sanitization
is the identity on the computed sum). -/
theorem recompute_frame (a : Actor) :
    (updateAttunementBurden a).actor.items = a.items ∧
      (∀ ns key : String,
        ¬ (ns = AdvancedAttunement.ID ∧ key = AdvancedAttunement.ATTUNEMENT_BURDEN) →
          (updateAttunementBurden a).actor.getFlag ns key = a.getFlag ns key) ∧
      ∀ w ∈ (updateAttunementBurden a).writes,
        w = (AdvancedAttunement.ID, AdvancedAttunement.ATTUNEMENT_BURDEN,
          toFlag (computeNewBurden a)) := by
  cases hg : strictEqNumFlag (computeNewBurden a) (getAttunementBurden a) with
  | true =>
      rw [updateAttunementBurden_of_strictEq a hg]
      exact ⟨rfl, fun ns key _ => rfl, fun w hw => absurd hw (List.not_mem_nil w)⟩
  | false =>
      rw [updateAttunementBurden_of_not_strictEq a hg]
      refine ⟨rfl, fun ns key hnk => ?_, fun w hw => ?_⟩
      · exact Actor.getFlag_setFlag_ne a _ _ ns key _ hnk
      · simpa using hw

/-- Witness for C10: a character with an unrelated flag key; recompute
leaves the items and the unrelated flag unchanged, and only writes the
burden key. -/
theorem recompute_frame_witness :
    (updateAttunementBurden c10Hero).actor.items = c10Hero.items ∧
      (updateAttunementBurden c10Hero).actor.getFlag "other-module" "other-key" =
        c10Hero.getFlag "other-module" "other-key" ∧
      ∀ w ∈ (updateAttunementBurden c10Hero).writes,
        w = (AdvancedAttunement.ID, AdvancedAttunement.ATTUNEMENT_BURDEN,
          toFlag (computeNewBurden c10Hero)) :=
  ⟨(recompute_frame c10Hero).1,
    (recompute_frame c10Hero).2.1 "other-module" "other-key" (by decide),
    (recompute_frame c10Hero).2.2⟩

end Claims
